import Mathlib

/-!
Shallow embedding of three Oppia backend modules and proofs of the
specification claims about them:

* `core/domain/feedback_domain.py` — feedback domain objects
  (`FeedbackThread`, `FeedbackMessage`, `FeedbackThreadSummary`) with their
  `to_dict` projections and derived-field computations;
* `core/jobs/transforms/validation/story_validation.py` — the two
  commit-log validators and their `_get_change_domain_class` overrides;
* `core/controllers/improvements.py` — the improvement-task POST handler
  and the config GET handler.

Python dictionaries are embedded as ordered association lists of
`String × JsonVal`; Python `None` is `Option.none` (or `JsonVal.null`
inside a dict); fallible attribute access returns `Option`.  External
collaborators (`user_services.get_username`,
`exp_fetchers.get_exploration_by_id`, the configuration registry) are
passed in as explicit parameters.
-/

/-- JSON-like values appearing in the dict representations produced by the
`to_dict` methods and by the HTTP handlers.  `null` models Python `None`. -/
inductive JsonVal where
  | str (s : String)
  | int (n : Int)
  | num (q : ℚ)
  | bool (b : Bool)
  | null
  deriving DecidableEq, Repr

/-- A Python `datetime.datetime` value, represented by its epoch timestamp
in milliseconds. -/
structure PyDatetime where
  msecs_since_epoch : Int
  deriving DecidableEq, Repr

/-- Modelled from the spec: `utils.get_time_in_millisecs` (in
`core/utils.py`, outside the excerpt) turns an internal datetime into a
millisecond epoch integer. -/
def get_time_in_millisecs (d : PyDatetime) : Int :=
  d.msecs_since_epoch

/-- Embedding of a Python `str | None` value placed in a dict literal:
`none` becomes JSON `null`. -/
def jsonOfOptStr : Option String → JsonVal
  | some s => JsonVal.str s
  | none => JsonVal.null

/-- Model of the Python pattern
`user_services.get_username(x) if x else None`: the author id is truthy
exactly when present and nonempty, in which case the external resolver
`get_username` supplies the display username (itself possibly null);
otherwise no resolution is attempted and the result is `null`. -/
def username_or_none (get_username : String → Option String) :
    Option String → JsonVal
  | some s => if s.isEmpty then JsonVal.null else jsonOfOptStr (get_username s)
  | none => JsonVal.null

/-- Model of the Python string method `split` with the single-character
separator given in the source (`s.split('.')`): the character sequence is
cut at every occurrence of the separator. -/
def py_split_dot (s : String) : List String :=
  (s.toList.splitOn '.').map (fun cs => String.mk cs)

/-- Model of the Python string method `startswith`: the character sequence
of `pre` is a prefix of that of `s`. -/
def py_starts_with (s pre : String) : Bool :=
  pre.toList.isPrefixOf s.toList

/-- Model of the Python expression `range(start, stop, -1)`: the descending
integers from `start` (inclusive) down to `stop` (exclusive). -/
def py_range_down (start stop : Int) : List Int :=
  (List.range (start - stop).toNat).map (fun k => start - k)

/-- Domain object for a feedback thread
(`feedback_domain.FeedbackThread`).  Fields that may hold Python `None`
are `Option`-typed. -/
structure FeedbackThread where
  id : String
  entity_type : String
  entity_id : String
  state_name : String
  original_author_id : Option String
  status : String
  subject : String
  summary : String
  has_suggestion : Bool
  message_count : Int
  created_on : PyDatetime
  last_updated : PyDatetime
  last_nonempty_message_text : Option String
  last_nonempty_message_author_id : Option String

/-- `FeedbackThread.to_dict`, with the external collaborator
`user_services.get_username` passed in as `get_username`. -/
def FeedbackThread.to_dict (t : FeedbackThread)
    (get_username : String → Option String) : List (String × JsonVal) :=
  [("last_updated_msecs", JsonVal.int (get_time_in_millisecs t.last_updated)),
   ("original_author_username", username_or_none get_username t.original_author_id),
   ("state_name", JsonVal.str t.state_name),
   ("status", JsonVal.str t.status),
   ("subject", JsonVal.str t.subject),
   ("summary", JsonVal.str t.summary),
   ("thread_id", JsonVal.str t.id),
   ("message_count", JsonVal.int t.message_count),
   ("last_nonempty_message_text", jsonOfOptStr t.last_nonempty_message_text),
   ("last_nonempty_message_author",
     username_or_none get_username t.last_nonempty_message_author_id)]

/-- `FeedbackThread._get_full_message_id`: the thread id and the decimal
rendering of `message_id`, joined by the separator from the source. -/
def FeedbackThread.get_full_message_id (t : FeedbackThread)
    (message_id : Int) : String :=
  String.intercalate "." [t.id, toString message_id]

/-- `FeedbackThread.get_last_two_message_ids`: the Python list
comprehension over `range(message_count - 1, message_count - 3, -1)`,
yielding the full message id when the index is nonnegative and `None`
otherwise. -/
def FeedbackThread.get_last_two_message_ids (t : FeedbackThread) :
    List (Option String) :=
  (py_range_down (t.message_count - 1) (t.message_count - 3)).map
    (fun i => if 0 ≤ i then some (t.get_full_message_id i) else none)

/-- Domain object for a feedback message
(`feedback_domain.FeedbackMessage`). -/
structure FeedbackMessage where
  id : String
  thread_id : String
  message_id : String
  author_id : Option String
  updated_status : Option String
  updated_subject : Option String
  text : String
  created_on : PyDatetime
  last_updated : PyDatetime
  received_via_email : Bool

/-- `FeedbackMessage.entity_id` property: position 1 of the split of the id
on the separator; the Python property raises `IndexError` when that segment
is absent, which the embedding renders as `none`. -/
def FeedbackMessage.entity_id (m : FeedbackMessage) : Option String :=
  (py_split_dot m.id)[1]?

/-- `FeedbackMessage.entity_type` property: position 0 of the split of the
id on the separator, `none` modelling an out-of-range indexing error. -/
def FeedbackMessage.entity_type (m : FeedbackMessage) : Option String :=
  (py_split_dot m.id)[0]?

/-- `FeedbackMessage.to_dict`: the dict literal reads the derived
properties, so on a malformed id the whole call raises, which the embedding
renders as `none`. -/
def FeedbackMessage.to_dict (m : FeedbackMessage)
    (get_username : String → Option String) :
    Option (List (String × JsonVal)) :=
  match m.entity_type, m.entity_id with
  | some et, some ei =>
    some [("author_username", username_or_none get_username m.author_id),
          ("created_on_msecs", JsonVal.int (get_time_in_millisecs m.created_on)),
          ("entity_type", JsonVal.str et),
          ("entity_id", JsonVal.str ei),
          ("message_id", JsonVal.str m.message_id),
          ("text", JsonVal.str m.text),
          ("updated_status", jsonOfOptStr m.updated_status),
          ("updated_subject", jsonOfOptStr m.updated_subject)]
  | _, _ => none

/-- Domain object for the summary of a thread
(`feedback_domain.FeedbackThreadSummary`). -/
structure FeedbackThreadSummary where
  status : String
  original_author_id : Option String
  last_updated : PyDatetime
  last_message_text : String
  total_message_count : Int
  last_message_is_read : Bool
  second_last_message_is_read : Bool
  author_last_message : String
  author_second_last_message : String
  exploration_title : String
  exploration_id : String
  thread_id : String

/-- `FeedbackThreadSummary.to_dict`: a plain projection of the stored
fields; the author id is emitted as stored and no username resolution
happens here. -/
def FeedbackThreadSummary.to_dict (s : FeedbackThreadSummary) :
    List (String × JsonVal) :=
  [("status", JsonVal.str s.status),
   ("original_author_id", jsonOfOptStr s.original_author_id),
   ("last_updated_msecs", JsonVal.int (get_time_in_millisecs s.last_updated)),
   ("last_message_text", JsonVal.str s.last_message_text),
   ("total_message_count", JsonVal.int s.total_message_count),
   ("last_message_is_read", JsonVal.bool s.last_message_is_read),
   ("second_last_message_is_read", JsonVal.bool s.second_last_message_is_read),
   ("author_last_message", JsonVal.str s.author_last_message),
   ("author_second_last_message", JsonVal.str s.author_second_last_message),
   ("exploration_title", JsonVal.str s.exploration_title),
   ("exploration_id", JsonVal.str s.exploration_id),
   ("thread_id", JsonVal.str s.thread_id)]

/-- Stored story snapshot metadata record
(`story_models.StorySnapshotMetadataModel`); no field of it is read by the
validator in the excerpt. -/
structure StorySnapshotMetadataModel where
  id : String

/-- Stored story commit log record
(`story_models.StoryCommitLogEntryModel`); the validator reads its id. -/
structure StoryCommitLogEntryModel where
  id : String

/-- The change domain class referenced by the validators in the excerpt
(`story_domain.StoryChange`), as a class reference value. -/
inductive ChangeDomainClass where
  | StoryChange
  deriving DecidableEq, Repr

/-- Modelled from the spec: `job_utils.clone_model` (outside the excerpt)
yields a copy of the record carrying the same field values; on an immutable
value it is the identity. -/
def clone_model (m : StoryCommitLogEntryModel) : StoryCommitLogEntryModel :=
  m

/-- `ValidateStorySnapshotMetadataModel._get_change_domain_class`: ignores
the input model and yields the story change class. -/
def ValidateStorySnapshotMetadataModel.get_change_domain_class
    (_unused_input_model : StorySnapshotMetadataModel) :
    Option ChangeDomainClass :=
  some ChangeDomainClass.StoryChange

/-- `ValidateStoryCommitLogEntryModel._get_change_domain_class`: clones the
input record, yields the story change class when its id starts with
`story`, and the skip signal (`None`) otherwise. -/
def ValidateStoryCommitLogEntryModel.get_change_domain_class
    (input_model : StoryCommitLogEntryModel) : Option ChangeDomainClass :=
  let model := clone_model input_model
  if py_starts_with model.id "story" then some ChangeDomainClass.StoryChange
  else none

/-- Modelled from the spec: `constants.TASK_ENTITY_TYPE_EXPLORATION` (in
the constants registry outside the excerpt), the entity type label for
exploration improvement tasks. -/
def TASK_ENTITY_TYPE_EXPLORATION : String := "exploration"

/-- Modelled from the spec: `constants.TASK_TARGET_TYPE_STATE` (outside
the excerpt), the target type label for state-targeted improvement
tasks. -/
def TASK_TARGET_TYPE_STATE : String := "state"

/-- An improvement task entry (`improvements_domain.TaskEntry`), with the
fields in the constructor argument order used by the handler. -/
structure TaskEntry where
  entity_type : String
  entity_id : String
  entity_version : Int
  task_type : String
  target_type : String
  target_id : String
  issue_description : Option String
  status : String
  resolver_id : Option String
  resolved_on : PyDatetime
  deriving DecidableEq, Repr

/-- One schema-validated item of the POST `task_entries` payload.  The
external schema layer guarantees the required keys; `issue_description`
models `task_entry.get('issue_description', None)`, an absent key becoming
`none`. -/
structure TaskEntryPayloadItem where
  entity_version : Int
  task_type : String
  target_id : String
  status : String
  issue_description : Option String
  deriving DecidableEq, Repr

/-- `ExplorationImprovementsHandler.post`: builds one `TaskEntry` per
payload item in a loop, hands the batch to the external
`improvements_services.put_tasks`, and renders the empty JSON object.  The
result pairs the submitted batch with the rendered response; `user_id` and
`now` stand for `self.user_id` and `datetime.datetime.utcnow()`. -/
def ExplorationImprovementsHandler.post (exploration_id : String)
    (user_id : Option String) (now : PyDatetime)
    (task_entries : List TaskEntryPayloadItem) :
    List TaskEntry × List (String × JsonVal) :=
  let task_entries_to_put := task_entries.foldl
    (fun acc task_entry =>
      acc ++ [{ entity_type := TASK_ENTITY_TYPE_EXPLORATION
                entity_id := exploration_id
                entity_version := task_entry.entity_version
                task_type := task_entry.task_type
                target_type := TASK_TARGET_TYPE_STATE
                target_id := task_entry.target_id
                issue_description := task_entry.issue_description
                status := task_entry.status
                resolver_id := user_id
                resolved_on := now }]) []
  (task_entries_to_put, [])

/-- An exploration as seen by the config handler; only the version is
read. -/
structure Exploration where
  version : Int

/-- The process-wide configuration registry values read by the config
handler (the `config_domain` properties named in the source). -/
structure ConfigRegistry where
  is_improvements_tab_enabled : Bool
  high_bounce_rate_task_state_bounce_rate_creation_threshold : ℚ
  high_bounce_rate_task_state_bounce_rate_obsoletion_threshold : ℚ
  high_bounce_rate_task_minimum_exploration_starts : Int

/-- `ExplorationImprovementsConfigHandler.get`, with the external
exploration fetch (`exp_fetchers.get_exploration_by_id`) passed in as
`fetch` for the successful case, and the configuration registry as
`cfg`. -/
def ExplorationImprovementsConfigHandler.get (fetch : String → Exploration)
    (cfg : ConfigRegistry) (exploration_id : String) :
    List (String × JsonVal) :=
  [("exploration_id", JsonVal.str exploration_id),
   ("exploration_version", JsonVal.int (fetch exploration_id).version),
   ("is_improvements_tab_enabled",
     JsonVal.bool cfg.is_improvements_tab_enabled),
   ("high_bounce_rate_task_state_bounce_rate_creation_threshold",
     JsonVal.num cfg.high_bounce_rate_task_state_bounce_rate_creation_threshold),
   ("high_bounce_rate_task_state_bounce_rate_obsoletion_threshold",
     JsonVal.num cfg.high_bounce_rate_task_state_bounce_rate_obsoletion_threshold),
   ("high_bounce_rate_task_minimum_exploration_starts",
     JsonVal.int cfg.high_bounce_rate_task_minimum_exploration_starts)]

/-! ## Helper lemmas and concrete sample values -/

theorem py_starts_with_iff (s pre : String) :
    py_starts_with s pre = true ↔ ∃ rest : String, s = pre ++ rest := by
  unfold py_starts_with
  rw [List.isPrefixOf_iff_prefix]
  constructor
  · rintro ⟨t, ht⟩
    refine ⟨String.mk t, ?_⟩
    have h : (pre ++ String.mk t).data = pre.data ++ t := rfl
    apply String.ext
    rw [h]
    exact ht.symm
  · rintro ⟨rest, hrest⟩
    refine ⟨rest.data, ?_⟩
    rw [hrest]
    rfl

theorem py_range_down_two (n : Int) :
    py_range_down (n - 1) (n - 3) = [n - 1, n - 2] := by
  unfold py_range_down
  have h2 : (n - 1 - (n - 3)).toNat = 2 := by omega
  rw [h2]
  have h3 : List.range 2 = [0, 1] := rfl
  rw [h3]
  simp
  omega

theorem foldl_append_singleton_eq_map {α β : Type} (f : α → β) (l : List α) :
    ∀ acc : List β, l.foldl (fun r x => r ++ [f x]) acc = acc ++ l.map f := by
  induction l with
  | nil => intro acc; simp
  | cons x xs ih => intro acc; simp [ih]

theorem py_split_dot_ne_nil (s : String) : py_split_dot s ≠ [] := by
  unfold py_split_dot
  intro h
  rw [List.map_eq_nil_iff] at h
  exact List.splitOnP_ne_nil _ s.toList h

theorem py_split_dot_composite (a b c : String)
    (ha : ∀ ch ∈ a.toList, ch ≠ '.') (hb : ∀ ch ∈ b.toList, ch ≠ '.') :
    py_split_dot (a ++ "." ++ b ++ "." ++ c) = a :: b :: py_split_dot c := by
  unfold py_split_dot
  have hdata : (a ++ "." ++ b ++ "." ++ c).toList
      = a.toList ++ '.' :: (b.toList ++ '.' :: c.toList) := by
    show (a.data ++ ['.'] ++ b.data ++ ['.'] ++ c.data)
        = a.data ++ '.' :: (b.data ++ '.' :: c.data)
    simp
  rw [hdata]
  have hpa : ∀ x ∈ a.toList, ¬((x == '.') = true) := by
    intro x hx hcon
    exact ha x hx (by simpa using hcon)
  have hpb : ∀ x ∈ b.toList, ¬((x == '.') = true) := by
    intro x hx hcon
    exact hb x hx (by simpa using hcon)
  show ((a.toList ++ '.' :: (b.toList ++ '.' :: c.toList)).splitOnP (· == '.')).map _
      = _
  rw [List.splitOnP_first _ _ hpa '.' (by simp)]
  rw [List.splitOnP_first _ _ hpb '.' (by simp)]
  rfl

theorem py_split_dot_single (s : String) (h : ∀ ch ∈ s.toList, ch ≠ '.') :
    py_split_dot s = [s] := by
  unfold py_split_dot
  have hp : ∀ x ∈ s.toList, ¬((x == '.') = true) := by
    intro x hx hcon
    exact h x hx (by simpa using hcon)
  show (s.toList.splitOnP (· == '.')).map _ = _
  rw [List.splitOnP_eq_single _ _ hp]
  rfl

/-- A concrete username resolver used by the witnesses and the
counterexample. -/
def sample_get_username : String → Option String :=
  fun s =>
    if s = "uid1" then some "ResolvedUser"
    else if s = "uid2" then some "SecondUser"
    else none

/-- A concrete feedback thread with both author ids present. -/
def c3_thread : FeedbackThread :=
  ⟨"exploration.e1.t1", "exploration", "e1", "Intro", some "uid1", "open",
   "subj", "summ", false, 2, ⟨3⟩, ⟨4⟩, some "hi", some "uid2"⟩

/-- A concrete feedback message with a present author id. -/
def c3_message : FeedbackMessage :=
  ⟨"exploration.e1.0", "exploration.e1.t1", "0", some "uid1", none, none,
   "hello", ⟨5⟩, ⟨6⟩, false⟩

/-- The dict produced by `c3_message.to_dict sample_get_username`. -/
def c3_message_dict : List (String × JsonVal) :=
  [("author_username", JsonVal.str "ResolvedUser"),
   ("created_on_msecs", JsonVal.int 5),
   ("entity_type", JsonVal.str "exploration"),
   ("entity_id", JsonVal.str "e1"),
   ("message_id", JsonVal.str "0"),
   ("text", JsonVal.str "hello"),
   ("updated_status", JsonVal.null),
   ("updated_subject", JsonVal.null)]

/-- A concrete thread summary whose author id resolves to a display name
under `sample_get_username`. -/
def c3_summary : FeedbackThreadSummary :=
  ⟨"open", some "uid1", ⟨7⟩, "hi", 2, true, false, "Alice", "Bob",
   "Title", "e1", "exploration.e1.t1"⟩

/-- A concrete feedback thread with both author-id fields null. -/
def c6_thread : FeedbackThread :=
  ⟨"exploration.e1.t1", "exploration", "e1", "Intro", none, "open",
   "subj", "summ", false, 1, ⟨3⟩, ⟨4⟩, none, none⟩

/-- A concrete feedback message with a null author id. -/
def c6_message : FeedbackMessage :=
  ⟨"exploration.e1.0", "exploration.e1.t1", "0", none, none, none,
   "hello", ⟨5⟩, ⟨6⟩, false⟩

/-- The dict produced by `c6_message.to_dict sample_get_username`. -/
def c6_message_dict : List (String × JsonVal) :=
  [("author_username", JsonVal.null),
   ("created_on_msecs", JsonVal.int 5),
   ("entity_type", JsonVal.str "exploration"),
   ("entity_id", JsonVal.str "e1"),
   ("message_id", JsonVal.str "0"),
   ("text", JsonVal.str "hello"),
   ("updated_status", JsonVal.null),
   ("updated_subject", JsonVal.null)]

/-- A concrete message whose id is the composite from the spec example. -/
def c4_message : FeedbackMessage :=
  ⟨"exploration.abc123.4", "exploration.abc123", "4", none, none, none,
   "", ⟨0⟩, ⟨0⟩, false⟩

/-- A concrete message constructed with a malformed, dotless id. -/
def c5_message : FeedbackMessage :=
  ⟨"abc", "t", "0", none, none, none, "", ⟨0⟩, ⟨0⟩, false⟩

/-- A concrete message constructed with the empty id. -/
def c10_message : FeedbackMessage :=
  ⟨"", "t", "0", none, none, none, "", ⟨0⟩, ⟨0⟩, false⟩

/-! ## Claim theorems -/

/-- C1: for every feedback thread with `message_count = n`,
`get_last_two_message_ids` returns exactly the two-element ordered list
`[full_id(n-1), full_id(n-2)]`, where a slot with a negative index is
`None` instead of an identifier (so `n = 1` gives `[full_id(0), None]` and
`n = 0` gives `[None, None]`), and the full id of index `i` is the thread
id joined with the decimal rendering of `i` by a `.` separator. -/
theorem get_last_two_message_ids_spec (t : FeedbackThread) :
    t.get_last_two_message_ids =
      [if 0 ≤ t.message_count - 1
         then some (t.get_full_message_id (t.message_count - 1)) else none,
       if 0 ≤ t.message_count - 2
         then some (t.get_full_message_id (t.message_count - 2)) else none]
    ∧ (∀ i : Int, t.get_full_message_id i = t.id ++ "." ++ toString i) := by
  constructor
  · unfold FeedbackThread.get_last_two_message_ids
    rw [py_range_down_two]
    rfl
  · intro i
    rfl

/-- C2: the story commit-log validator yields the story change class
exactly when the record id starts with `story` (that is, when the id
literally extends the string `story`), yields the skip signal (`none`)
for every other id, and in particular skips the empty id. -/
theorem story_commit_log_change_domain_class_spec
    (m : StoryCommitLogEntryModel) :
    (ValidateStoryCommitLogEntryModel.get_change_domain_class m
        = some ChangeDomainClass.StoryChange
      ↔ ∃ rest, m.id = "story" ++ rest)
    ∧ (ValidateStoryCommitLogEntryModel.get_change_domain_class m = none
      ↔ ¬ ∃ rest, m.id = "story" ++ rest)
    ∧ ValidateStoryCommitLogEntryModel.get_change_domain_class { id := "" }
        = none := by
  unfold ValidateStoryCommitLogEntryModel.get_change_domain_class clone_model
  refine ⟨?_, ?_, ?_⟩
  · rw [← py_starts_with_iff]
    cases h : py_starts_with m.id "story" <;> simp [h]
  · rw [← py_starts_with_iff]
    cases h : py_starts_with m.id "story" <;> simp [h]
  · rfl

/-- C9: the story snapshot-metadata validator yields the story change
class for every input record, ignoring the record, and never yields the
skip signal. -/
theorem story_snapshot_metadata_change_domain_class_spec
    (m : StorySnapshotMetadataModel) :
    ValidateStorySnapshotMetadataModel.get_change_domain_class m
        = some ChangeDomainClass.StoryChange
    ∧ (ValidateStorySnapshotMetadataModel.get_change_domain_class m).isSome
        = true :=
  ⟨rfl, rfl⟩

/-- C10: `entity_type` is total — splitting any id on `.` yields at least
one segment, so position 0 always exists; even the empty id yields the
empty first segment, while `entity_id` (position 1) is the only derived
field that can be absent, as it is on the empty id. -/
theorem entity_type_total (m : FeedbackMessage) :
    (m.entity_type).isSome = true
    ∧ 1 ≤ (py_split_dot m.id).length
    ∧ c10_message.entity_type = some ""
    ∧ c10_message.entity_id = none := by
  have h := py_split_dot_ne_nil m.id
  have hlen : 0 < (py_split_dot m.id).length := List.length_pos.mpr h
  refine ⟨?_, by omega, by decide, by decide⟩
  unfold FeedbackMessage.entity_type
  rw [List.getElem?_eq_getElem hlen]
  rfl

/-- C4: for a message whose id is the `.`-joined composite of an entity
type (dotless), an entity id (dotless) and a remainder, the derived
`entity_type` is the segment before the first `.` and `entity_id` the
segment between the first and second `.`. -/
theorem entity_fields_of_composite_id (m : FeedbackMessage) (a b c : String)
    (hid : m.id = a ++ "." ++ b ++ "." ++ c)
    (ha : ∀ ch ∈ a.toList, ch ≠ '.') (hb : ∀ ch ∈ b.toList, ch ≠ '.') :
    m.entity_type = some a ∧ m.entity_id = some b := by
  unfold FeedbackMessage.entity_type FeedbackMessage.entity_id
  rw [hid, py_split_dot_composite a b c ha hb]
  constructor <;> simp

/-- C4 witness: the concrete id `exploration.abc123.4` yields entity type
`exploration` and entity id `abc123`. -/
theorem entity_fields_of_composite_id_witness :
    c4_message.entity_type = some "exploration"
    ∧ c4_message.entity_id = some "abc123" :=
  entity_fields_of_composite_id c4_message "exploration" "abc123" "4"
    (by decide) (by decide) (by decide)

/-- C5: a message constructed with a malformed id lacking the composite
structure — any id containing no `.` — fails on `entity_id`: the split has
a single segment and indexing position 1 is out of range (`none`, the
embedding of the raised `IndexError`); construction itself performed no
validation, and `entity_type` silently yields the whole id. -/
theorem entity_id_fails_on_malformed_id (m : FeedbackMessage)
    (h : ∀ ch ∈ m.id.toList, ch ≠ '.') :
    m.entity_id = none ∧ m.entity_type = some m.id := by
  unfold FeedbackMessage.entity_type FeedbackMessage.entity_id
  rw [py_split_dot_single m.id h]
  constructor <;> simp

/-- C5 witness: the concrete dotless id `abc`. -/
theorem entity_id_fails_on_malformed_id_witness :
    c5_message.entity_id = none
    ∧ c5_message.entity_type = some c5_message.id :=
  entity_id_fails_on_malformed_id c5_message (by decide)

/-- C3 counterexample: `FeedbackThreadSummary.to_dict` does not replace its
internal author-id field with the externally resolved display username.
For the concrete summary whose author id `uid1` resolves to `ResolvedUser`,
the dict binds `original_author_id` to the raw internal id and nowhere
contains the resolved display username. -/
theorem summary_to_dict_keeps_raw_author_id :
    sample_get_username "uid1" = some "ResolvedUser"
    ∧ (c3_summary.to_dict).lookup "original_author_id"
        = some (JsonVal.str "uid1")
    ∧ ((c3_summary.to_dict).map Prod.snd).contains
        (JsonVal.str "ResolvedUser") = false := by
  refine ⟨by decide, by decide, by decide⟩

/-- C3 (amended): `FeedbackThread.to_dict` and `FeedbackMessage.to_dict`
replace each internal author-id field with the externally resolved display
username and each internal timestamp field with a millisecond epoch
integer; `FeedbackThreadSummary.to_dict` converts its timestamp the same
way but emits `original_author_id` as the raw internal id with no
resolution. -/
theorem to_dict_projection_fields
    (t : FeedbackThread) (m : FeedbackMessage) (s : FeedbackThreadSummary)
    (u : String → Option String) (d : List (String × JsonVal))
    (a b cc : String)
    (hta : t.original_author_id = some a) (hane : a ≠ "")
    (htb : t.last_nonempty_message_author_id = some b) (hbne : b ≠ "")
    (hma : m.author_id = some cc) (hcne : cc ≠ "")
    (hd : m.to_dict u = some d) :
    (t.to_dict u).lookup "last_updated_msecs"
        = some (JsonVal.int (get_time_in_millisecs t.last_updated))
    ∧ (t.to_dict u).lookup "original_author_username"
        = some (jsonOfOptStr (u a))
    ∧ (t.to_dict u).lookup "last_nonempty_message_author"
        = some (jsonOfOptStr (u b))
    ∧ d.lookup "created_on_msecs"
        = some (JsonVal.int (get_time_in_millisecs m.created_on))
    ∧ d.lookup "author_username" = some (jsonOfOptStr (u cc))
    ∧ (s.to_dict).lookup "last_updated_msecs"
        = some (JsonVal.int (get_time_in_millisecs s.last_updated))
    ∧ (s.to_dict).lookup "original_author_id"
        = some (jsonOfOptStr s.original_author_id) := by
  have hae : a.isEmpty = false := by
    cases hc : a.isEmpty
    · rfl
    · exact absurd ((String.isEmpty_iff a).mp hc) hane
  have hbe : b.isEmpty = false := by
    cases hc : b.isEmpty
    · rfl
    · exact absurd ((String.isEmpty_iff b).mp hc) hbne
  have hce : cc.isEmpty = false := by
    cases hc : cc.isEmpty
    · rfl
    · exact absurd ((String.isEmpty_iff cc).mp hc) hcne
  have hmsg : d.lookup "created_on_msecs"
        = some (JsonVal.int (get_time_in_millisecs m.created_on))
      ∧ d.lookup "author_username" = some (jsonOfOptStr (u cc)) := by
    unfold FeedbackMessage.to_dict at hd
    cases het : m.entity_type with
    | none => rw [het] at hd; simp at hd
    | some et =>
      cases hei : m.entity_id with
      | none => rw [het, hei] at hd; simp at hd
      | some ei =>
        rw [het, hei] at hd
        simp only [Option.some.injEq] at hd
        subst hd
        constructor
        · rfl
        · have e : (List.lookup "author_username"
              [("author_username", username_or_none u m.author_id),
               ("created_on_msecs",
                 JsonVal.int (get_time_in_millisecs m.created_on)),
               ("entity_type", JsonVal.str et),
               ("entity_id", JsonVal.str ei),
               ("message_id", JsonVal.str m.message_id),
               ("text", JsonVal.str m.text),
               ("updated_status", jsonOfOptStr m.updated_status),
               ("updated_subject", jsonOfOptStr m.updated_subject)])
              = some (username_or_none u m.author_id) := rfl
          rw [e, hma]
          simp [username_or_none, hce]
  refine ⟨rfl, ?_, ?_, hmsg.1, hmsg.2, rfl, rfl⟩
  · have e : (t.to_dict u).lookup "original_author_username"
        = some (username_or_none u t.original_author_id) := rfl
    rw [e, hta]
    simp [username_or_none, hae]
  · have e : (t.to_dict u).lookup "last_nonempty_message_author"
        = some (username_or_none u t.last_nonempty_message_author_id) := rfl
    rw [e, htb]
    simp [username_or_none, hbe]

/-- C3 witness: the amended statement applied to the concrete thread,
message and summary, with `sample_get_username` as the resolver. -/
theorem to_dict_projection_fields_witness :
    (c3_thread.to_dict sample_get_username).lookup "last_updated_msecs"
        = some (JsonVal.int (get_time_in_millisecs c3_thread.last_updated))
    ∧ (c3_thread.to_dict sample_get_username).lookup "original_author_username"
        = some (jsonOfOptStr (sample_get_username "uid1"))
    ∧ (c3_thread.to_dict sample_get_username).lookup "last_nonempty_message_author"
        = some (jsonOfOptStr (sample_get_username "uid2"))
    ∧ c3_message_dict.lookup "created_on_msecs"
        = some (JsonVal.int (get_time_in_millisecs c3_message.created_on))
    ∧ c3_message_dict.lookup "author_username"
        = some (jsonOfOptStr (sample_get_username "uid1"))
    ∧ (c3_summary.to_dict).lookup "last_updated_msecs"
        = some (JsonVal.int (get_time_in_millisecs c3_summary.last_updated))
    ∧ (c3_summary.to_dict).lookup "original_author_id"
        = some (jsonOfOptStr c3_summary.original_author_id) :=
  to_dict_projection_fields c3_thread c3_message c3_summary
    sample_get_username c3_message_dict "uid1" "uid2" "uid1"
    rfl (by decide) rfl (by decide) rfl (by decide) (by decide)

/-- C6: on a thread or message whose author id is null, `to_dict` still
emits the username key, bound to `null`, and the value is `null` whatever
the external resolver would answer, so no resolution is attempted. -/
theorem null_author_yields_null_username
    (t : FeedbackThread) (m : FeedbackMessage)
    (u : String → Option String) (d : List (String × JsonVal))
    (ht : t.original_author_id = none)
    (htn : t.last_nonempty_message_author_id = none)
    (hm : m.author_id = none)
    (hd : m.to_dict u = some d) :
    ((t.to_dict u).lookup "original_author_username" = some JsonVal.null)
    ∧ ((t.to_dict u).lookup "last_nonempty_message_author"
        = some JsonVal.null)
    ∧ (d.lookup "author_username" = some JsonVal.null) := by
  refine ⟨?_, ?_, ?_⟩
  · simp only [FeedbackThread.to_dict, ht]
    rfl
  · simp only [FeedbackThread.to_dict, htn]
    rfl
  · unfold FeedbackMessage.to_dict at hd
    cases het : m.entity_type with
    | none => rw [het] at hd; simp at hd
    | some et =>
      cases hei : m.entity_id with
      | none => rw [het, hei] at hd; simp at hd
      | some ei =>
        rw [het, hei] at hd
        simp only [Option.some.injEq] at hd
        subst hd
        rw [hm]
        rfl

/-- C6 witness: the concrete thread and message with null author ids. -/
theorem null_author_yields_null_username_witness :
    ((c6_thread.to_dict sample_get_username).lookup
        "original_author_username" = some JsonVal.null)
    ∧ ((c6_thread.to_dict sample_get_username).lookup
        "last_nonempty_message_author" = some JsonVal.null)
    ∧ (c6_message_dict.lookup "author_username" = some JsonVal.null) :=
  null_author_yields_null_username c6_thread c6_message
    sample_get_username c6_message_dict rfl rfl rfl (by decide)

/-- C7: the POST handler builds exactly one task entry per payload item —
exploration entity type, the request exploration id, state target type,
the item target id, the issue description defaulting to `none` — submits
exactly that batch to the task-write service, and renders the empty JSON
object; the empty payload yields an empty batch and the same empty
acknowledgment. -/
theorem post_tasks_spec (exploration_id : String) (user_id : Option String)
    (now : PyDatetime) (items : List TaskEntryPayloadItem) :
    ExplorationImprovementsHandler.post exploration_id user_id now items
      = (items.map (fun it =>
          { entity_type := TASK_ENTITY_TYPE_EXPLORATION
            entity_id := exploration_id
            entity_version := it.entity_version
            task_type := it.task_type
            target_type := TASK_TARGET_TYPE_STATE
            target_id := it.target_id
            issue_description := it.issue_description
            status := it.status
            resolver_id := user_id
            resolved_on := now }), [])
    ∧ (ExplorationImprovementsHandler.post
        exploration_id user_id now items).1.length = items.length
    ∧ ExplorationImprovementsHandler.post exploration_id user_id now []
        = ([], []) := by
  refine ⟨?_, ?_, rfl⟩
  · unfold ExplorationImprovementsHandler.post
    rw [foldl_append_singleton_eq_map]
    rfl
  · unfold ExplorationImprovementsHandler.post
    rw [foldl_append_singleton_eq_map]
    simp

/-- C8: a successful config GET renders exactly the six keys, echoing the
request path argument under `exploration_id`, the version of the fetched
exploration under `exploration_version`, and the flag and the three
thresholds read from the configuration registry. -/
theorem config_get_spec (fetch : String → Exploration)
    (cfg : ConfigRegistry) (exploration_id : String) :
    (ExplorationImprovementsConfigHandler.get fetch cfg exploration_id).map
        Prod.fst
      = ["exploration_id", "exploration_version",
         "is_improvements_tab_enabled",
         "high_bounce_rate_task_state_bounce_rate_creation_threshold",
         "high_bounce_rate_task_state_bounce_rate_obsoletion_threshold",
         "high_bounce_rate_task_minimum_exploration_starts"]
    ∧ (ExplorationImprovementsConfigHandler.get fetch cfg
        exploration_id).lookup "exploration_id"
        = some (JsonVal.str exploration_id)
    ∧ (ExplorationImprovementsConfigHandler.get fetch cfg
        exploration_id).lookup "exploration_version"
        = some (JsonVal.int (fetch exploration_id).version)
    ∧ (ExplorationImprovementsConfigHandler.get fetch cfg
        exploration_id).lookup "is_improvements_tab_enabled"
        = some (JsonVal.bool cfg.is_improvements_tab_enabled)
    ∧ (ExplorationImprovementsConfigHandler.get fetch cfg
        exploration_id).lookup
          "high_bounce_rate_task_state_bounce_rate_creation_threshold"
        = some (JsonVal.num
            cfg.high_bounce_rate_task_state_bounce_rate_creation_threshold)
    ∧ (ExplorationImprovementsConfigHandler.get fetch cfg
        exploration_id).lookup
          "high_bounce_rate_task_state_bounce_rate_obsoletion_threshold"
        = some (JsonVal.num
            cfg.high_bounce_rate_task_state_bounce_rate_obsoletion_threshold)
    ∧ (ExplorationImprovementsConfigHandler.get fetch cfg
        exploration_id).lookup
          "high_bounce_rate_task_minimum_exploration_starts"
        = some (JsonVal.int
            cfg.high_bounce_rate_task_minimum_exploration_starts) :=
  ⟨rfl, rfl, rfl, rfl, rfl, rfl, rfl⟩
